import Mathlib

/-!
Verification of the pl-odds aggregation and dashboard query layer.

The development shallowly embeds the JavaScript analysis code of the
repository (docs/js/analyzer.js and the parallel analyzer variant, plus
docs/js/team-utils.js and docs/js/data-loader.js).  JavaScript numbers are
modelled as exact rationals (for the executable statistics code) or reals
(for the correlation code, whose square root is irrational in general);
nullable fields are `Option`; the browser localStorage cache is explicit
state passing; array identity, where a claim is about aliasing, is modelled
by a small heap of numbered arrays.
-/

/-! ## JavaScript value model

`JSVal` covers the inputs relevant to `Analyzer.impliedProbability`:
decimal odds may arrive as a number, `null`, `undefined`, or `NaN`.
-/

inductive JSVal : Type where
  | null : JSVal
  | undefined : JSVal
  | nan : JSVal
  | num : ℚ → JSVal
deriving DecidableEq

/-- JavaScript truthiness for `JSVal`: `null`, `undefined`, `NaN` and `0`
are falsy, every other number is truthy. -/
def jsTruthy : JSVal → Bool
  | JSVal.null => false
  | JSVal.undefined => false
  | JSVal.nan => false
  | JSVal.num q => decide (q ≠ 0)

/-- JavaScript numeric coercion of a nullable number: `null` coerces to `0`
in `+` and in `<`/`>` comparisons (`sum + null === sum`, `null > 0 === false`). -/
def jsNum (v : Option ℚ) : ℚ := v.getD 0

namespace Analyzer

/-- `Analyzer.calculateNetPerformance` of the analyzer variant whose doc
comment reads `(Actual Goal Diff) + (Spread)`: `return actualDiff + spread`. -/
def calculateNetPerformance (actualDiff spread : ℚ) : ℚ := actualDiff + spread

/-- `Analyzer.impliedProbability`:
`if (!decimalOdds || decimalOdds === 0) return 0; return 1.0 / decimalOdds;`.
The fallthrough arm of `oneOver` is unreachable: the guard filters every
non-number out. -/
def oneOver : JSVal → ℚ
  | JSVal.num q => 1 / q
  | _ => 0

def impliedProbability (decimalOdds : JSVal) : ℚ :=
  if !jsTruthy decimalOdds || decide (decimalOdds = JSVal.num 0) then 0
  else oneOver decimalOdds

end Analyzer

namespace DocsAnalyzer

/-- `Analyzer.calculateNetPerformance` of docs/js/analyzer.js, whose doc
comment reads `(Actual Goal Diff) - (Spread Line)`: `return actualDiff - spread`. -/
def calculateNetPerformance (actualDiff spread : ℚ) : ℚ := actualDiff - spread

end DocsAnalyzer

/-! ## Team name normalisation (docs/js/team-utils.js `formatTeamName`) -/

namespace TeamUtils

/-- The alias table of `TeamUtils.formatTeamName` (identical in both copies
of team-utils.js in the repository). -/
def normalized : List (String × String) :=
  [("Man City", "Manchester City"),
   ("Man United", "Manchester United"),
   ("Spurs", "Tottenham")]

/-- The property names a plain object literal inherits from
`Object.prototype`: its methods and the `__proto__` accessor.  Each of the
corresponding property values (a function, or for `__proto__` the
`Object.prototype` object itself) is truthy. -/
def objectPrototypeKeys : List String :=
  ["constructor", "hasOwnProperty", "isPrototypeOf", "propertyIsEnumerable",
   "toLocaleString", "toString", "valueOf", "__proto__",
   "__defineGetter__", "__defineSetter__", "__lookupGetter__", "__lookupSetter__"]

/-- What `normalized[teamName] || teamName` can evaluate to: a string, or
the non-string property that the object literal inherits from
`Object.prototype` under the given key. -/
inductive JSProp : Type where
  | str : String → JSProp
  | inherited : String → JSProp
deriving DecidableEq

/-- `TeamUtils.formatTeamName`: `return normalized[teamName] || teamName;`.
The bracket lookup consults the object's own keys first and then the
prototype chain: an own key yields its (truthy, non-empty) alias string; a
property name of `Object.prototype` yields the inherited property, which is
truthy, so `||` returns it; on a complete miss the lookup is `undefined`
(falsy) and `||` yields `teamName`. -/
def formatTeamName (teamName : String) : JSProp :=
  match normalized.lookup teamName with
  | some canonical => JSProp.str canonical
  | none =>
      if teamName ∈ objectPrototypeKeys then JSProp.inherited teamName
      else JSProp.str teamName

end TeamUtils

/-! ## Browser cache (docs/js/data-loader.js) -/

namespace DataLoader

/-- A parsed cache record: the payload together with its `timestamp`
(`fetchedAt`, milliseconds). -/
structure CacheEntry (α : Type) : Type where
  payload : α
  timestamp : ℤ
deriving DecidableEq

/-- What localStorage may hold under the cache key: a string that fails
`JSON.parse`, or a well-formed entry. -/
inductive StoredBlob (α : Type) : Type where
  | junk : StoredBlob α
  | entry : CacheEntry α → StoredBlob α
deriving DecidableEq

/-- `DataLoader.CACHE_DURATION`: one hour in milliseconds. -/
def CACHE_DURATION : ℤ := 3600000

/-- `DataLoader.getCached`, as a function of the stored state and the clock
`Date.now()`; it returns the result together with the new stored state.
A parse failure is caught and the item removed; an entry whose age
`now - timestamp` has reached `CACHE_DURATION` is removed; a younger entry
is returned unchanged. -/
def getCached {α : Type} (store : Option (StoredBlob α)) (now : ℤ) :
    Option (CacheEntry α) × Option (StoredBlob α) :=
  match store with
  | none => (none, none)
  | some StoredBlob.junk => (none, none)
  | some (StoredBlob.entry e) =>
      if now - e.timestamp < CACHE_DURATION then (some e, store) else (none, none)

/-- `DataLoader.loadAll`: use the cached record when `getCached` returns one,
otherwise fetch fresh data (modelled by the parameter `fresh`), stamp it with
`Date.now()` and store it via `setCache`. -/
def loadAll {α : Type} (store : Option (StoredBlob α)) (now : ℤ) (fresh : α) :
    CacheEntry α × Option (StoredBlob α) :=
  match getCached store now with
  | (some e, store1) => (e, store1)
  | (none, _) =>
      (⟨fresh, now⟩, some (StoredBlob.entry ⟨fresh, now⟩))

end DataLoader

/-! ## Pearson correlation (`Analyzer.calculateCorrelation`)

The function is identical in both analyzer files.  Inputs are modelled as
lists of reals; the JavaScript `reduce` with `+` over numbers is the list
sum, and `Math.sqrt` is `Real.sqrt`.
-/

namespace Analyzer

/-- `n * sumXY - sumX * sumY`, the numerator computed by
`calculateCorrelation` (with `sumXY = Σ x_i * y_i`). -/
noncomputable def corrNumerator (xValues yValues : List ℝ) : ℝ :=
  (xValues.length : ℝ) * (List.zipWith (fun x y => x * y) xValues yValues).sum
    - xValues.sum * yValues.sum

/-- `n * sumX2 - sumX * sumX`, one factor under the square root of
`calculateCorrelation`. -/
noncomputable def svar (xValues : List ℝ) : ℝ :=
  (xValues.length : ℝ) * (xValues.map fun x => x * x).sum
    - xValues.sum * xValues.sum

/-- `Math.sqrt((n*sumX2 - sumX*sumX) * (n*sumY2 - sumY*sumY))`. -/
noncomputable def corrDenominator (xValues yValues : List ℝ) : ℝ :=
  Real.sqrt (svar xValues * svar yValues)

/-- `Analyzer.calculateCorrelation`: returns `0` when the lengths differ or
`n === 0`, returns `0` when the denominator is `0`, and otherwise divides. -/
noncomputable def calculateCorrelation (xValues yValues : List ℝ) : ℝ :=
  if xValues.length ≠ yValues.length ∨ xValues.length = 0 then 0
  else if corrDenominator xValues yValues = 0 then 0
  else corrNumerator xValues yValues / corrDenominator xValues yValues

end Analyzer

/-! Spec-side definitions of the standard Pearson coefficient, written from
the specification words ("the covariance of x and y divided by the product
of their standard deviations", population convention) for the refinement
claim about `calculateCorrelation`. -/

namespace SpecStats

noncomputable def mean (xs : List ℝ) : ℝ := xs.sum / xs.length

noncomputable def popVariance (xs : List ℝ) : ℝ :=
  (xs.map fun x => (x - mean xs) ^ 2).sum / xs.length

noncomputable def stdDev (xs : List ℝ) : ℝ := Real.sqrt (popVariance xs)

noncomputable def covariance (xs ys : List ℝ) : ℝ :=
  (List.zipWith (fun x y => (x - mean xs) * (y - mean ys)) xs ys).sum / xs.length

noncomputable def pearson (xs ys : List ℝ) : ℝ :=
  covariance xs ys / (stdDev xs * stdDev ys)

end SpecStats

/-! ## Match data model

The shape of `team.matchHistory` entries consumed by the dashboard.
Modelled from the spec: the Python preprocessing that emits
`team-performance-history.json` is not part of the repository snapshot;
per spec §4.3 and §3, a reconciled fixture without any bookmaker line is
retained in the match history with a null spread and is excluded from
net-performance statistics, so `spread` and `netPerformance` are nullable.
Dates are calendar dates compared chronologically, as `new Date(m.date)`
comparisons do.
-/

structure SimpleDate : Type where
  year : ℤ
  month : ℤ
  day : ℤ
deriving DecidableEq

/-- Chronological order on calendar dates (the order that comparing
`new Date(...)` values realises). -/
def SimpleDate.le (a b : SimpleDate) : Prop :=
  a.year < b.year
    ∨ (a.year = b.year
        ∧ (a.month < b.month ∨ (a.month = b.month ∧ a.day ≤ b.day)))

instance (a b : SimpleDate) : Decidable (SimpleDate.le a b) :=
  inferInstanceAs (Decidable (_ ∨ _))

inductive MatchResult : Type where
  | W : MatchResult
  | L : MatchResult
  | D : MatchResult
deriving DecidableEq

/-- The `homeAway` marker of a match history entry. -/
inductive Location : Type where
  | home : Location
  | away : Location
deriving DecidableEq

/-- The location argument of `getFilteredTeams` / `filterMatchesByLocation`. -/
inductive LocFilter : Type where
  | all : LocFilter
  | home : LocFilter
  | away : LocFilter
deriving DecidableEq

/-- The `filterType` argument of `getFilteredTeams`. -/
inductive TimeFilter : Type where
  | last5 : TimeFilter
  | last10 : TimeFilter
  | season : TimeFilter
  | all : TimeFilter
deriving DecidableEq

structure MatchRec : Type where
  date : SimpleDate
  result : MatchResult
  homeAway : Location
  spread : Option ℚ
  netPerformance : Option ℚ
  cumulativeNetPerformance : ℚ
deriving DecidableEq

/-- The statistics block built by the analyzer for a (filtered) view. -/
structure Statistics : Type where
  matchesPlayed : ℕ
  wins : ℕ
  losses : ℕ
  draws : ℕ
  covers : ℕ
  avgNetPerformance : ℚ
  winRate : ℚ
  coverRate : ℚ
deriving DecidableEq

structure Team : Type where
  name : String
  totalNetPerformance : ℚ
  matchHistory : List MatchRec
  statistics : Statistics
deriving DecidableEq

/-- The fields of a match record that the filtered statistics read
(everything except the stored running `cumulativeNetPerformance`). -/
def MatchRec.core (m : MatchRec) :
    SimpleDate × MatchResult × Location × Option ℚ × Option ℚ :=
  (m.date, m.result, m.homeAway, m.spread, m.netPerformance)

/-- `matches.reduce((sum, m) => sum + m.netPerformance, 0)`: the list sum of
the per-match net performances, a `null` entry coercing to `0`. -/
def netPerfSum (ms : List MatchRec) : ℚ :=
  (ms.map fun m => jsNum m.netPerformance).sum

namespace Analyzer

/-- The `calculateStats` helper of `getFilteredTeams` (the identical
computations appear inline in `getTeamsForLastNMatches` and in the season
branch of docs/js/analyzer.js).  Every rate divides by `matchesPlayed`,
the length of the filtered list; `m.netPerformance > 0` is false for a
`null` entry. -/
def calculateStats (ms : List MatchRec) : Statistics :=
  let netPerformance := netPerfSum ms
  let wins := (ms.filter fun m => decide (m.result = MatchResult.W)).length
  let losses := (ms.filter fun m => decide (m.result = MatchResult.L)).length
  let draws := (ms.filter fun m => decide (m.result = MatchResult.D)).length
  let covers := (ms.filter fun m => decide (jsNum m.netPerformance > 0)).length
  let matchesPlayed := ms.length
  { matchesPlayed := matchesPlayed
    wins := wins
    losses := losses
    draws := draws
    covers := covers
    avgNetPerformance := if 0 < matchesPlayed then netPerformance / matchesPlayed else 0
    winRate := if 0 < matchesPlayed then (wins : ℚ) / matchesPlayed else 0
    coverRate := if 0 < matchesPlayed then (covers : ℚ) / matchesPlayed else 0 }

/-- `matchHistory.slice(-n)` for a natural `n`.  JavaScript evaluates
`slice(-0)` as `slice(0)`, the whole array; for `n > 0` it starts at
`max(length - n, 0)`, which truncated subtraction gives directly. -/
def sliceLast {α : Type} (l : List α) (n : ℕ) : List α :=
  if n = 0 then l else l.drop (l.length - n)

/-- The per-team body of `getTeamsForLastNMatches`: take the last `n`
matches, then rebuild `totalNetPerformance` and `statistics` from that
subset alone. -/
def lastNView (team : Team) (n : ℕ) : Team :=
  let recentMatches := sliceLast team.matchHistory n
  { team with
    totalNetPerformance := netPerfSum recentMatches
    statistics := calculateStats recentMatches }

/-- `Analyzer.getTeamsForLastNMatches` (docs/js/analyzer.js). -/
def getTeamsForLastNMatches (teams : List Team) (n : ℕ) : List Team :=
  teams.map fun team => lastNView team n

/-- `Analyzer.filterMatchesByLocation` (part_001 analyzer). -/
def filterMatchesByLocation (ms : List MatchRec) (location : LocFilter) :
    List MatchRec :=
  match location with
  | LocFilter.all => ms
  | LocFilter.home => ms.filter fun m => decide (m.homeAway = Location.home)
  | LocFilter.away => ms.filter fun m => decide (m.homeAway = Location.away)

/-- `new Date(currentYear, 7, 1)`: August 1st of the current year
(JavaScript months are 0-indexed). -/
def seasonStart (now : SimpleDate) : SimpleDate := ⟨now.year, 8, 1⟩

/-- The per-team body shared by the non-`all` branches of the part_001
`getFilteredTeams`. -/
def rebuiltTeam (team : Team) (ms : List MatchRec) : Team :=
  { team with
    totalNetPerformance := netPerfSum ms
    statistics := calculateStats ms }

/-- `Analyzer.getFilteredTeams` of the part_001 analyzer, with the location
parameter; the clock read `new Date().getFullYear()` in the season branch is
made explicit as `now`. -/
def getFilteredTeams (teams : List Team) (filterType : TimeFilter)
    (location : LocFilter) (now : SimpleDate) : List Team :=
  match filterType with
  | TimeFilter.last5 =>
      teams.map fun team =>
        rebuiltTeam team
          (filterMatchesByLocation (sliceLast team.matchHistory 5) location)
  | TimeFilter.last10 =>
      teams.map fun team =>
        rebuiltTeam team
          (filterMatchesByLocation (sliceLast team.matchHistory 10) location)
  | TimeFilter.season =>
      teams.map fun team =>
        rebuiltTeam team
          (filterMatchesByLocation
            (team.matchHistory.filter fun m =>
              decide (SimpleDate.le (seasonStart now) m.date))
            location)
  | TimeFilter.all =>
      match location with
      | LocFilter.all => teams
      | _ =>
          teams.map fun team =>
            rebuiltTeam team (filterMatchesByLocation team.matchHistory location)

/-- The season branch of the docs/js `getFilteredTeams` (no location
parameter), used by the heap model below. -/
def seasonView (teams : List Team) (now : SimpleDate) : List Team :=
  teams.map fun team =>
    rebuiltTeam team
      (team.matchHistory.filter fun m =>
        decide (SimpleDate.le (seasonStart now) m.date))

end Analyzer

/-! ## Array identity model

The frame claim about the query operations is about JavaScript object
identity: which array a function returns and whether the arrays reachable
from the input are written to.  Arrays of teams are modelled as numbered
cells of a heap; `[...arr]` allocates a fresh cell holding a copy, while
returning an argument unchanged returns the same cell number.
-/

structure Heap (α : Type) : Type where
  next : ℕ
  mem : ℕ → Option (List α)

/-- Allocate a fresh array cell holding `l`. -/
def Heap.alloc {α : Type} (h : Heap α) (l : List α) : ℕ × Heap α :=
  (h.next,
   { next := h.next + 1
     mem := fun i => if i = h.next then some l else h.mem i })

/-- Read an array cell. -/
def Heap.deref {α : Type} (h : Heap α) (r : ℕ) : List α :=
  (h.mem r).getD []

/-- Insertion sort with a boolean comparator, the model of
`Array.prototype.sort(cmp)` applied to the freshly spread copy. -/
def insertBy {α : Type} (le : α → α → Bool) (a : α) : List α → List α
  | [] => [a]
  | b :: t => if le a b then a :: b :: t else b :: insertBy le a t

def sortBy {α : Type} (le : α → α → Bool) : List α → List α
  | [] => []
  | a :: t => insertBy le a (sortBy le t)

namespace Analyzer

/-- The comparator of `getTeamsSortedByPerformance`:
`descending ? b.totalNetPerformance - a.totalNetPerformance : ...`. -/
def perfLe (descending : Bool) (a b : Team) : Bool :=
  if descending then decide (b.totalNetPerformance ≤ a.totalNetPerformance)
  else decide (a.totalNetPerformance ≤ b.totalNetPerformance)

/-- `Analyzer.getTeamsSortedByPerformance`:
`const teams = [...data.performance.teams]; teams.sort(...); return teams;` —
a fresh copy is allocated and sorted; the original cell is untouched. -/
def getTeamsSortedByPerformance (h : Heap Team) (r : ℕ) (descending : Bool) :
    ℕ × Heap Team :=
  h.alloc (sortBy (perfLe descending) (h.deref r))

/-- `Analyzer.getTeamsSortedAlphabetically`, with `localeCompare` modelled
by the order on strings. -/
def getTeamsSortedAlphabetically (h : Heap Team) (r : ℕ) : ℕ × Heap Team :=
  h.alloc (sortBy (fun a b => decide (a.name ≤ b.name)) (h.deref r))

/-- `Analyzer.getTopTeams`: sort descending (one fresh array), then
`slice(0, n)` (a second fresh array). -/
def getTopTeams (h : Heap Team) (r : ℕ) (n : ℕ) : ℕ × Heap Team :=
  let sorted := getTeamsSortedByPerformance h r true
  sorted.2.alloc ((sorted.2.deref sorted.1).take n)

/-- `Analyzer.getBottomTeams`: sort ascending, then `slice(0, n)`. -/
def getBottomTeams (h : Heap Team) (r : ℕ) (n : ℕ) : ℕ × Heap Team :=
  let sorted := getTeamsSortedByPerformance h r false
  sorted.2.alloc ((sorted.2.deref sorted.1).take n)

end Analyzer

namespace DocsAnalyzer

/-- `Analyzer.getFilteredTeams` of docs/js/analyzer.js at the array level:
the `last5`, `last10` and `season` branches build a fresh array of rebuilt
team objects via `map`; the `all`/default branch returns
`data.performance.teams` itself — the same array cell. -/
def getFilteredTeams (h : Heap Team) (r : ℕ) (filterType : TimeFilter)
    (now : SimpleDate) : ℕ × Heap Team :=
  match filterType with
  | TimeFilter.last5 => h.alloc (Analyzer.getTeamsForLastNMatches (h.deref r) 5)
  | TimeFilter.last10 => h.alloc (Analyzer.getTeamsForLastNMatches (h.deref r) 10)
  | TimeFilter.season => h.alloc (Analyzer.seasonView (h.deref r) now)
  | TimeFilter.all => (r, h)

end DocsAnalyzer

/-! ## Concrete sample data for counterexamples and witnesses -/

/-- A reconciled match with a line: spread −1, net performance +1 (a cover). -/
def sampleLineMatch : MatchRec :=
  ⟨⟨2025, 9, 1⟩, MatchResult.W, Location.home, some (-1), some 1, 1⟩

/-- A match retained with no line: null spread, null net performance. -/
def sampleNoLineMatch : MatchRec :=
  ⟨⟨2025, 9, 8⟩, MatchResult.D, Location.away, none, none, 1⟩

/-- A team whose history holds one covered match and one no-line match. -/
def sampleTeamNoLine : Team :=
  ⟨"Arsenal", 1, [sampleLineMatch, sampleNoLineMatch],
   Analyzer.calculateStats [sampleLineMatch, sampleNoLineMatch]⟩

/-- A heap with a single allocated teams array at cell 0. -/
def sampleHeap : Heap Team :=
  ⟨1, fun i => if i = 0 then some [sampleTeamNoLine] else none⟩

/-! ## Theorems -/

/-- C1: `calculateNetPerformance(d, s)` is claimed to return `d + s` in both
shipped implementations, with `calculateNetPerformance(1, -1.0) == 0`.  The
part_001 analyzer does return `d + s` (second to fourth conjuncts check the
claimed examples), but docs/js/analyzer.js computes `d - s`, so at the
failing input `(1, -1.0)` it returns `2`, not the claimed `0`. -/
theorem netPerformance_sign_check :
    DocsAnalyzer.calculateNetPerformance 1 (-1) = 2
    ∧ Analyzer.calculateNetPerformance 1 (-1) = 0
    ∧ Analyzer.calculateNetPerformance 2 (-(1 / 2)) = 3 / 2
    ∧ Analyzer.calculateNetPerformance (-1) 1 = 0 := by
  refine ⟨?_, ?_, ?_, ?_⟩ <;>
    norm_num [DocsAnalyzer.calculateNetPerformance, Analyzer.calculateNetPerformance]

/-- C7 counterexample: `"toString"` is not in the alias table, yet
`formatTeamName("toString")` returns the inherited
`Object.prototype.toString` — a truthy non-string property — rather than
passing the input string through unchanged. -/
theorem formatTeamName_prototype_counterexample :
    TeamUtils.normalized.lookup "toString" = none
    ∧ TeamUtils.formatTeamName "toString" = TeamUtils.JSProp.inherited "toString"
    ∧ TeamUtils.JSProp.inherited "toString" ≠ TeamUtils.JSProp.str "toString" := by
  refine ⟨by decide, by decide, by decide⟩

/-- C7 amended: `formatTeamName` is a pure total function; each known
source variant maps to its single canonical name, and every input string
that is neither an alias key nor a property name inherited from
`Object.prototype` passes through unchanged (fail-open).  An inherited
property name, however, makes the bracket lookup truthy, and the function
returns that inherited property instead of the input. -/
theorem formatTeamName_fail_open_amended :
    (∀ s : String, TeamUtils.normalized.lookup s = none →
      s ∉ TeamUtils.objectPrototypeKeys →
      TeamUtils.formatTeamName s = TeamUtils.JSProp.str s)
    ∧ (∀ s : String, TeamUtils.normalized.lookup s = none →
      s ∈ TeamUtils.objectPrototypeKeys →
      TeamUtils.formatTeamName s = TeamUtils.JSProp.inherited s)
    ∧ TeamUtils.formatTeamName "Man City" = TeamUtils.JSProp.str "Manchester City"
    ∧ TeamUtils.formatTeamName "Man United"
        = TeamUtils.JSProp.str "Manchester United"
    ∧ TeamUtils.formatTeamName "Spurs" = TeamUtils.JSProp.str "Tottenham" := by
  refine ⟨fun s h hm => ?_, fun s h hm => ?_, by decide, by decide, by decide⟩
  · simp [TeamUtils.formatTeamName, h, hm]
  · simp [TeamUtils.formatTeamName, h, hm]

/-- C7 witness: "Arsenal" misses both the alias table and the prototype
keys and passes through unchanged. -/
theorem formatTeamName_fail_open_amended_witness :
    TeamUtils.formatTeamName "Arsenal" = TeamUtils.JSProp.str "Arsenal" :=
  formatTeamName_fail_open_amended.1 "Arsenal" (by decide) (by decide)

/-- C8: the cache obeys the TTL model: a stored well-formed entry is
returned by `getCached` exactly when its age `now - fetchedAt` is strictly
below `CACHE_DURATION`; an entry at or past the TTL is removed and `null`
returned; an unparseable entry is removed and `null` returned; and whenever
`getCached` returns `null`, `loadAll` returns freshly fetched data. -/
theorem getCached_ttl_model {α : Type} (store : Option (DataLoader.StoredBlob α))
    (now : ℤ) (e : DataLoader.CacheEntry α) (fresh : α) :
    (store = some (DataLoader.StoredBlob.entry e) →
      ((DataLoader.getCached store now).1 = some e ↔
        now - e.timestamp < DataLoader.CACHE_DURATION))
    ∧ (store = some (DataLoader.StoredBlob.entry e) →
        DataLoader.CACHE_DURATION ≤ now - e.timestamp →
        DataLoader.getCached store now = (none, none))
    ∧ DataLoader.getCached (some (DataLoader.StoredBlob.junk : DataLoader.StoredBlob α)) now
        = (none, none)
    ∧ ((DataLoader.getCached store now).1 = none →
        (DataLoader.loadAll store now fresh).1 = ⟨fresh, now⟩) := by
  refine ⟨fun hst => ?_, fun hst hage => ?_, by simp [DataLoader.getCached], fun hnone => ?_⟩
  · subst hst
    by_cases hlt : now - e.timestamp < DataLoader.CACHE_DURATION
    · simp [DataLoader.getCached, hlt]
    · simp [DataLoader.getCached, hlt]
  · subst hst
    simp [DataLoader.getCached, not_lt.mpr hage]
  · unfold DataLoader.loadAll
    rcases hg : DataLoader.getCached store now with ⟨c, st⟩
    rw [hg] at hnone
    simp only at hnone
    subst hnone
    simp

/-- C8 witness: a one-hour TTL at a concrete age of 100 ms. -/
theorem getCached_ttl_model_witness :
    (100 : ℤ) - 0 < DataLoader.CACHE_DURATION
    ∧ (DataLoader.getCached
        (some (DataLoader.StoredBlob.entry (⟨7, 0⟩ : DataLoader.CacheEntry ℤ))) 100).1
        = some ⟨7, 0⟩ :=
  ⟨by decide,
   ((getCached_ttl_model (some (DataLoader.StoredBlob.entry ⟨7, 0⟩)) 100 ⟨7, 0⟩ 0).1
      rfl).mpr (by decide)⟩

/-- C10: `impliedProbability` is total and its division guarded: the falsy
inputs `null`, `undefined`, `NaN` and `0` all return `0`, and every nonzero
decimal odds `q` returns `1 / q`. -/
theorem impliedProbability_total_guarded :
    Analyzer.impliedProbability JSVal.null = 0
    ∧ Analyzer.impliedProbability JSVal.undefined = 0
    ∧ Analyzer.impliedProbability JSVal.nan = 0
    ∧ Analyzer.impliedProbability (JSVal.num 0) = 0
    ∧ ∀ q : ℚ, q ≠ 0 → Analyzer.impliedProbability (JSVal.num q) = 1 / q := by
  refine ⟨rfl, rfl, rfl, by decide, fun q hq => ?_⟩
  simp [Analyzer.impliedProbability, Analyzer.oneOver, jsTruthy, hq]

/-- C10 witness: odds of 2 imply probability one half. -/
theorem impliedProbability_total_guarded_witness :
    Analyzer.impliedProbability (JSVal.num 2) = 1 / 2 :=
  impliedProbability_total_guarded.2.2.2.2 2 (by norm_num)

/-- C4 counterexample: in the last-5 filtered view of a team with one
covered match and one no-line match, the code reports `coverRate = 1/2`
(denominator 2, every match in the view), while a denominator counting only
the one match with a defined spread would give `1/1 = 1`; so the no-line
match does change `coverRate`. -/
theorem coverRate_denominator_counterexample :
    ((Analyzer.getFilteredTeams [sampleTeamNoLine] TimeFilter.last5 LocFilter.all
        ⟨2025, 10, 1⟩).map fun t => t.statistics.coverRate) = [1 / 2]
    ∧ (sampleTeamNoLine.matchHistory.filter fun m => decide (m.spread ≠ none)).length = 1
    ∧ (Analyzer.calculateStats [sampleLineMatch]).coverRate = 1
    ∧ ((1 : ℚ) / 2) ≠ 1 := by
  refine ⟨?_, by decide, ?_, by norm_num⟩
  · simp [Analyzer.getFilteredTeams, Analyzer.rebuiltTeam, Analyzer.calculateStats,
      Analyzer.sliceLast, Analyzer.filterMatchesByLocation, netPerfSum, jsNum,
      sampleTeamNoLine, sampleLineMatch, sampleNoLineMatch]
  · simp [Analyzer.calculateStats, netPerfSum, jsNum, sampleLineMatch]

/-- C4 amended: the rate statistics use one consistent denominator,
`matchesPlayed` — the number of matches in the (filtered) view, whether or
not their spread is defined.  A match lacking a spread still counts toward
`matchesPlayed`, contributes zero to the net-performance sum and is never a
cover, so it does change (dilute) `coverRate` and `avgNetPerformance` by
enlarging their denominator. -/
theorem stats_denominator_all_matches (ms : List MatchRec) (m : MatchRec)
    (hnp : m.netPerformance = none) :
    (Analyzer.calculateStats ms).matchesPlayed = ms.length
    ∧ (Analyzer.calculateStats (ms ++ [m])).matchesPlayed = ms.length + 1
    ∧ (Analyzer.calculateStats (ms ++ [m])).covers = (Analyzer.calculateStats ms).covers
    ∧ netPerfSum (ms ++ [m]) = netPerfSum ms
    ∧ (Analyzer.calculateStats (ms ++ [m])).coverRate
        = ((Analyzer.calculateStats ms).covers : ℚ) / (ms.length + 1)
    ∧ (Analyzer.calculateStats (ms ++ [m])).avgNetPerformance
        = netPerfSum ms / (ms.length + 1) := by
  refine ⟨rfl, by simp [Analyzer.calculateStats], ?_, ?_, ?_, ?_⟩
  · simp [Analyzer.calculateStats, List.filter_append, jsNum, hnp]
  · simp [netPerfSum, jsNum, hnp]
  · simp [Analyzer.calculateStats, List.filter_append, jsNum, hnp]
  · simp [Analyzer.calculateStats, List.filter_append, netPerfSum, jsNum, hnp]

/-- C4 witness: appending the no-line match to the one-match history gives
`coverRate = covers / 2`. -/
theorem stats_denominator_all_matches_witness :
    sampleNoLineMatch.netPerformance = none
    ∧ (Analyzer.calculateStats ([sampleLineMatch] ++ [sampleNoLineMatch])).coverRate
        = ((Analyzer.calculateStats [sampleLineMatch]).covers : ℚ)
            / (([sampleLineMatch] : List MatchRec).length + 1) :=
  ⟨rfl,
   (stats_denominator_all_matches [sampleLineMatch] sampleNoLineMatch rfl).2.2.2.2.1⟩

/-- Filters whose predicate reads only the core fields of a match have the
same length on histories with equal cores. -/
theorem filter_length_map_core_eq
    (f : SimpleDate × MatchResult × Location × Option ℚ × Option ℚ → Bool) :
    ∀ ms ms' : List MatchRec, ms.map MatchRec.core = ms'.map MatchRec.core →
      (ms.filter fun m => f m.core).length = (ms'.filter fun m => f m.core).length := by
  intro ms
  induction ms with
  | nil =>
    intro ms' h
    cases ms' with
    | nil => rfl
    | cons m' t' => simp at h
  | cons m t ih =>
    intro ms' h
    cases ms' with
    | nil => simp at h
    | cons m' t' =>
      simp only [List.map_cons, List.cons.injEq] at h
      obtain ⟨hc, ht⟩ := h
      simp only [List.filter_cons]
      rw [hc]
      by_cases hf : f (MatchRec.core m') = true
      · simp [hf, ih t' ht]
      · simp [hf, ih t' ht]

/-- The net-performance sum reads only the core fields. -/
theorem netPerfSum_map_core_eq :
    ∀ ms ms' : List MatchRec, ms.map MatchRec.core = ms'.map MatchRec.core →
      netPerfSum ms = netPerfSum ms' := by
  intro ms
  induction ms with
  | nil =>
    intro ms' h
    cases ms' with
    | nil => rfl
    | cons m' t' => simp at h
  | cons m t ih =>
    intro ms' h
    cases ms' with
    | nil => simp at h
    | cons m' t' =>
      simp only [List.map_cons, List.cons.injEq] at h
      obtain ⟨hc, ht⟩ := h
      have hnp : m.netPerformance = m'.netPerformance :=
        congrArg (fun c => c.2.2.2.2) hc
      simp [netPerfSum, hnp, ih t' ht]
      rw [show (t.map fun x => jsNum x.netPerformance).sum
            = (t'.map fun x => jsNum x.netPerformance).sum from ih t' ht]

/-- The statistics block reads only the core fields of the match list. -/
theorem calculateStats_map_core_eq (ms ms' : List MatchRec)
    (h : ms.map MatchRec.core = ms'.map MatchRec.core) :
    Analyzer.calculateStats ms = Analyzer.calculateStats ms' := by
  have hlen : ms.length = ms'.length := by
    simpa using congrArg List.length h
  have hW : (ms.filter fun m => decide (m.result = MatchResult.W)).length
      = (ms'.filter fun m => decide (m.result = MatchResult.W)).length :=
    filter_length_map_core_eq (fun c => decide (c.2.1 = MatchResult.W)) ms ms' h
  have hL : (ms.filter fun m => decide (m.result = MatchResult.L)).length
      = (ms'.filter fun m => decide (m.result = MatchResult.L)).length :=
    filter_length_map_core_eq (fun c => decide (c.2.1 = MatchResult.L)) ms ms' h
  have hD : (ms.filter fun m => decide (m.result = MatchResult.D)).length
      = (ms'.filter fun m => decide (m.result = MatchResult.D)).length :=
    filter_length_map_core_eq (fun c => decide (c.2.1 = MatchResult.D)) ms ms' h
  have hC : (ms.filter fun m => decide (jsNum m.netPerformance > 0)).length
      = (ms'.filter fun m => decide (jsNum m.netPerformance > 0)).length :=
    filter_length_map_core_eq (fun c => decide (jsNum c.2.2.2.2 > 0)) ms ms' h
  have hs : netPerfSum ms = netPerfSum ms' := netPerfSum_map_core_eq ms ms' h
  simp only [Analyzer.calculateStats]
  rw [hlen, hW, hL, hD, hC, hs]

/-- C5 counterexample: JavaScript evaluates `slice(-0)` as `slice(0)`, so at
`N = 0` the "last N matches" view is computed over the full history rather
than the empty subset: the sample team's filtered `matchesPlayed` is 2, not
the 0 that a last-0 subset would give. -/
theorem lastN_zero_counterexample :
    Analyzer.sliceLast sampleTeamNoLine.matchHistory 0 = sampleTeamNoLine.matchHistory
    ∧ ((Analyzer.getTeamsForLastNMatches [sampleTeamNoLine] 0).map
        fun t => t.statistics.matchesPlayed) = [2]
    ∧ (2 : ℕ) ≠ 0 := by
  refine ⟨rfl, ?_, by decide⟩
  simp [Analyzer.getTeamsForLastNMatches, Analyzer.lastNView, Analyzer.sliceLast,
    Analyzer.calculateStats, sampleTeamNoLine]

/-- C5 amended: for every `N ≥ 1`, the last-N view rebuilds the reported
total net performance as the sum over exactly the last `N` matches starting
from a zero baseline, rebuilds the statistics from that subset alone, and is
independent of the stored cumulative values (two teams whose histories agree
on every field except the stored running `cumulativeNetPerformance` get
identical filtered totals and statistics); the part_001 `last5` branch with
location `all` agrees with the docs `getTeamsForLastNMatches` at `N = 5`. -/
theorem lastN_recompute_from_subset (n : ℕ) (hn : 1 ≤ n) (t t' : Team)
    (h : t.matchHistory.map MatchRec.core = t'.matchHistory.map MatchRec.core) :
    (Analyzer.lastNView t n).totalNetPerformance
        = netPerfSum (t.matchHistory.drop (t.matchHistory.length - n))
    ∧ (Analyzer.lastNView t n).statistics
        = Analyzer.calculateStats (t.matchHistory.drop (t.matchHistory.length - n))
    ∧ (Analyzer.lastNView t n).totalNetPerformance
        = (Analyzer.lastNView t' n).totalNetPerformance
    ∧ (Analyzer.lastNView t n).statistics = (Analyzer.lastNView t' n).statistics
    ∧ Analyzer.getTeamsForLastNMatches [t] n = [Analyzer.lastNView t n]
    ∧ (∀ (teams : List Team) (now : SimpleDate),
        Analyzer.getFilteredTeams teams TimeFilter.last5 LocFilter.all now
          = Analyzer.getTeamsForLastNMatches teams 5) := by
  have hn0 : n ≠ 0 := by omega
  have hslice : Analyzer.sliceLast t.matchHistory n
      = t.matchHistory.drop (t.matchHistory.length - n) := by
    simp [Analyzer.sliceLast, hn0]
  have hlen : t.matchHistory.length = t'.matchHistory.length := by
    simpa using congrArg List.length h
  have hcore : (Analyzer.sliceLast t.matchHistory n).map MatchRec.core
      = (Analyzer.sliceLast t'.matchHistory n).map MatchRec.core := by
    simp only [Analyzer.sliceLast, if_neg hn0]
    rw [List.map_drop, List.map_drop, hlen, h]
  refine ⟨by simp [Analyzer.lastNView, hslice], by simp [Analyzer.lastNView, hslice],
    ?_, ?_, rfl, fun teams now => ?_⟩
  · simp only [Analyzer.lastNView]
    exact netPerfSum_map_core_eq _ _ hcore
  · simp only [Analyzer.lastNView]
    exact calculateStats_map_core_eq _ _ hcore
  · simp [Analyzer.getFilteredTeams, Analyzer.getTeamsForLastNMatches,
      Analyzer.filterMatchesByLocation, Analyzer.rebuiltTeam, Analyzer.lastNView]

/-- C5 witness: the last-5 view of the sample team. -/
theorem lastN_recompute_from_subset_witness :
    (1 : ℕ) ≤ 5
    ∧ (Analyzer.lastNView sampleTeamNoLine 5).totalNetPerformance
        = netPerfSum (sampleTeamNoLine.matchHistory.drop
            (sampleTeamNoLine.matchHistory.length - 5)) :=
  ⟨by decide,
   (lastN_recompute_from_subset 5 (by decide) sampleTeamNoLine sampleTeamNoLine rfl).1⟩

/-- C6 counterexample: the `season` branch reads the wall clock
(`new Date().getFullYear()`): the same data and filter arguments give
different outputs when evaluated in October 2025 (season start 2025-08-01,
both sample matches included) and in February 2026 (season start 2026-08-01,
no matches included). -/
theorem season_filter_clock_dependent :
    Analyzer.getFilteredTeams [sampleTeamNoLine] TimeFilter.season LocFilter.all
        ⟨2025, 10, 1⟩
      ≠ Analyzer.getFilteredTeams [sampleTeamNoLine] TimeFilter.season LocFilter.all
        ⟨2026, 2, 1⟩ := by
  intro hcontra
  have := congrArg (fun l => l.map fun t => t.statistics.matchesPlayed) hcontra
  simp [Analyzer.getFilteredTeams, Analyzer.rebuiltTeam, Analyzer.calculateStats,
    Analyzer.filterMatchesByLocation, Analyzer.seasonStart, SimpleDate.le,
    sampleTeamNoLine, sampleLineMatch, sampleNoLineMatch] at this

/-- C6 amended: `getFilteredTeams` is a pure function of the data, the
filter arguments and the current year: any filter other than `season` is
independent of the clock, and two evaluations at clock instants in the same
calendar year agree for every filter.  Only the `season` filter depends on
the wall clock, through the current year. -/
theorem getFilteredTeams_pure_given_year (teams : List Team) (ft : TimeFilter)
    (loc : LocFilter) (now now' : SimpleDate) :
    (ft ≠ TimeFilter.season →
      Analyzer.getFilteredTeams teams ft loc now
        = Analyzer.getFilteredTeams teams ft loc now')
    ∧ (now.year = now'.year →
      Analyzer.getFilteredTeams teams ft loc now
        = Analyzer.getFilteredTeams teams ft loc now') := by
  constructor
  · intro hft
    cases ft <;> simp_all [Analyzer.getFilteredTeams]
  · intro hy
    cases ft <;> simp [Analyzer.getFilteredTeams, Analyzer.seasonStart, hy]

/-- C6 witness: the `last5` filter evaluated a year apart. -/
theorem getFilteredTeams_pure_given_year_witness :
    TimeFilter.last5 ≠ TimeFilter.season
    ∧ Analyzer.getFilteredTeams [sampleTeamNoLine] TimeFilter.last5 LocFilter.all
        ⟨2025, 10, 1⟩
      = Analyzer.getFilteredTeams [sampleTeamNoLine] TimeFilter.last5 LocFilter.all
        ⟨2026, 2, 1⟩ :=
  ⟨by decide,
   (getFilteredTeams_pure_given_year [sampleTeamNoLine] TimeFilter.last5 LocFilter.all
      ⟨2025, 10, 1⟩ ⟨2026, 2, 1⟩).1 (by decide)⟩

/-- C9 counterexample: `getFilteredTeams` with filter `all` returns
`data.performance.teams` itself — the already-allocated cell 0— and leaves
the heap unchanged, so the filtered result is the original array object,
not a fresh array. -/
theorem filteredTeams_all_aliases_input :
    DocsAnalyzer.getFilteredTeams sampleHeap 0 TimeFilter.all ⟨2025, 10, 1⟩
        = (0, sampleHeap)
    ∧ (0 : ℕ) < sampleHeap.next :=
  ⟨rfl, by decide⟩

/-- C9 amended: none of the query operations mutates its input — every
array cell allocated before the call (in particular the teams array, its
element order, and the match histories stored inside it) is unchanged
afterwards; both sorts, top/bottom, and the `last5`/`last10`/`season`
filters return freshly allocated arrays of rebuilt values, while
`getFilteredTeams` with filter `all` returns the input array itself,
unchanged but aliased. -/
theorem query_ops_frame (h : Heap Team) (r : ℕ) (descending : Bool) (n : ℕ)
    (ft : TimeFilter) (now : SimpleDate) (i : ℕ) (hi : i < h.next) :
    ((Analyzer.getTeamsSortedByPerformance h r descending).2.mem i = h.mem i
      ∧ h.next ≤ (Analyzer.getTeamsSortedByPerformance h r descending).1)
    ∧ ((Analyzer.getTeamsSortedAlphabetically h r).2.mem i = h.mem i
      ∧ h.next ≤ (Analyzer.getTeamsSortedAlphabetically h r).1)
    ∧ ((Analyzer.getTopTeams h r n).2.mem i = h.mem i
      ∧ h.next ≤ (Analyzer.getTopTeams h r n).1)
    ∧ ((Analyzer.getBottomTeams h r n).2.mem i = h.mem i
      ∧ h.next ≤ (Analyzer.getBottomTeams h r n).1)
    ∧ (DocsAnalyzer.getFilteredTeams h r ft now).2.mem i = h.mem i
    ∧ (ft ≠ TimeFilter.all →
        h.next ≤ (DocsAnalyzer.getFilteredTeams h r ft now).1)
    ∧ DocsAnalyzer.getFilteredTeams h r TimeFilter.all now = (r, h) := by
  have hne : i ≠ h.next := Nat.ne_of_lt hi
  have hne1 : i ≠ h.next + 1 := by omega
  refine ⟨⟨?_, ?_⟩, ⟨?_, ?_⟩, ⟨?_, ?_⟩, ⟨?_, ?_⟩, ?_, ?_, rfl⟩
  · simp [Analyzer.getTeamsSortedByPerformance, Heap.alloc, hne]
  · simp [Analyzer.getTeamsSortedByPerformance, Heap.alloc]
  · simp [Analyzer.getTeamsSortedAlphabetically, Heap.alloc, hne]
  · simp [Analyzer.getTeamsSortedAlphabetically, Heap.alloc]
  · simp [Analyzer.getTopTeams, Analyzer.getTeamsSortedByPerformance, Heap.alloc,
      hne, hne1]
  · simp [Analyzer.getTopTeams, Analyzer.getTeamsSortedByPerformance, Heap.alloc]
  · simp [Analyzer.getBottomTeams, Analyzer.getTeamsSortedByPerformance, Heap.alloc,
      hne, hne1]
  · simp [Analyzer.getBottomTeams, Analyzer.getTeamsSortedByPerformance, Heap.alloc]
  · cases ft <;> simp [DocsAnalyzer.getFilteredTeams, Heap.alloc, hne]
  · intro hft
    cases ft <;> simp_all [DocsAnalyzer.getFilteredTeams, Heap.alloc]

/-- C9 witness: the performance sort leaves the sample heap's cell 0
unchanged. -/
theorem query_ops_frame_witness :
    (0 : ℕ) < sampleHeap.next
    ∧ (Analyzer.getTeamsSortedByPerformance sampleHeap 0 true).2.mem 0
        = sampleHeap.mem 0 :=
  ⟨by decide,
   ((query_ops_frame sampleHeap 0 true 5 TimeFilter.all ⟨2025, 10, 1⟩ 0
      (by decide)).1).1⟩

/-- Expansion of a centred sum of squares over a list. -/
theorem sum_map_sub_sq (xs : List ℝ) (c : ℝ) :
    (xs.map fun x => (x - c) ^ 2).sum
      = (xs.map fun x => x * x).sum - 2 * c * xs.sum + xs.length * c ^ 2 := by
  induction xs with
  | nil => simp
  | cons a t ih =>
    simp only [List.map_cons, List.sum_cons, List.length_cons, ih]
    push_cast
    ring

/-- Expansion of a centred product sum over a pair of equal-length lists. -/
theorem sum_zipWith_sub (xs : List ℝ) (a b : ℝ) :
    ∀ ys : List ℝ, xs.length = ys.length →
      (List.zipWith (fun x y => (x - a) * (y - b)) xs ys).sum
        = (List.zipWith (fun x y => x * y) xs ys).sum - b * xs.sum - a * ys.sum
            + xs.length * (a * b) := by
  induction xs with
  | nil =>
    intro ys h
    cases ys with
    | nil => simp
    | cons y t => simp at h
  | cons x t ih =>
    intro ys h
    cases ys with
    | nil => simp at h
    | cons y t' =>
      simp only [List.length_cons, Nat.succ.injEq] at h
      simp only [List.zipWith_cons_cons, List.sum_cons, List.length_cons, ih t' h]
      push_cast
      ring

/-- The population variance is nonnegative. -/
theorem popVariance_nonneg (xs : List ℝ) : 0 ≤ SpecStats.popVariance xs := by
  apply div_nonneg _ (Nat.cast_nonneg _)
  apply List.sum_nonneg
  intro a ha
  obtain ⟨x, _, hx⟩ := List.mem_map.mp ha
  rw [← hx]
  positivity

/-- `n*sumX2 - sumX*sumX` is the squared length times the population
variance. -/
theorem svar_eq_sq (xs : List ℝ) (hn : xs.length ≠ 0) :
    Analyzer.svar xs = (xs.length : ℝ) ^ 2 * SpecStats.popVariance xs := by
  have hnR : (xs.length : ℝ) ≠ 0 := Nat.cast_ne_zero.mpr hn
  simp only [Analyzer.svar, SpecStats.popVariance, SpecStats.mean]
  rw [sum_map_sub_sq]
  field_simp
  ring

/-- The one-element list has zero `svar`. -/
theorem svar_singleton (x : ℝ) : Analyzer.svar [x] = 0 := by
  simp [Analyzer.svar]

/-- `n*sumXY - sumX*sumY` is the squared length times the population
covariance. -/
theorem corrNumerator_eq_sq (xs ys : List ℝ) (hlen : xs.length = ys.length)
    (hn : xs.length ≠ 0) :
    Analyzer.corrNumerator xs ys
      = (xs.length : ℝ) ^ 2 * SpecStats.covariance xs ys := by
  have hnR : (xs.length : ℝ) ≠ 0 := Nat.cast_ne_zero.mpr hn
  simp only [Analyzer.corrNumerator, SpecStats.covariance, SpecStats.mean]
  rw [sum_zipWith_sub xs _ _ ys hlen, ← hlen]
  field_simp
  ring

/-- C2: `calculateCorrelation` returns exactly `0` in every degenerate
case: mismatched lengths, fewer than 2 paired observations, or zero
variance in either sequence (which makes the computed denominator zero).
In the real-valued model no `NaN` and no exception can arise: every branch
returns a real number. -/
theorem calculateCorrelation_degenerate_zero (xs ys : List ℝ) :
    (xs.length ≠ ys.length → Analyzer.calculateCorrelation xs ys = 0)
    ∧ (xs.length < 2 → Analyzer.calculateCorrelation xs ys = 0)
    ∧ (SpecStats.popVariance xs = 0 → Analyzer.calculateCorrelation xs ys = 0)
    ∧ (SpecStats.popVariance ys = 0 → Analyzer.calculateCorrelation xs ys = 0) := by
  refine ⟨fun h => ?_, fun h => ?_, fun h => ?_, fun h => ?_⟩
  · simp [Analyzer.calculateCorrelation, h]
  · have h01 : xs.length = 0 ∨ xs.length = 1 := by omega
    rcases h01 with h0 | h1
    · simp [Analyzer.calculateCorrelation, h0]
    · by_cases hl : xs.length = ys.length
      · obtain ⟨x, hx⟩ := List.length_eq_one.mp h1
        subst hx
        have hd : Analyzer.corrDenominator [x] ys = 0 := by
          simp [Analyzer.corrDenominator, svar_singleton]
        unfold Analyzer.calculateCorrelation
        rw [if_neg (by push_neg; exact ⟨hl, by simp⟩), if_pos hd]
      · simp [Analyzer.calculateCorrelation, hl]
  · by_cases hc : xs.length ≠ ys.length ∨ xs.length = 0
    · unfold Analyzer.calculateCorrelation
      rw [if_pos hc]
    · push_neg at hc
      obtain ⟨hl, hn⟩ := hc
      have hsx : Analyzer.svar xs = 0 := by
        rw [svar_eq_sq xs hn, h, mul_zero]
      have hd : Analyzer.corrDenominator xs ys = 0 := by
        simp [Analyzer.corrDenominator, hsx]
      unfold Analyzer.calculateCorrelation
      rw [if_neg (by push_neg; exact ⟨hl, hn⟩), if_pos hd]
  · by_cases hc : xs.length ≠ ys.length ∨ xs.length = 0
    · unfold Analyzer.calculateCorrelation
      rw [if_pos hc]
    · push_neg at hc
      obtain ⟨hl, hn⟩ := hc
      have hny : ys.length ≠ 0 := hl ▸ hn
      have hsy : Analyzer.svar ys = 0 := by
        rw [svar_eq_sq ys hny, h, mul_zero]
      have hd : Analyzer.corrDenominator xs ys = 0 := by
        simp [Analyzer.corrDenominator, hsy]
      unfold Analyzer.calculateCorrelation
      rw [if_neg (by push_neg; exact ⟨hl, hn⟩), if_pos hd]

/-- C2 witness: a single paired observation yields correlation `0`. -/
theorem calculateCorrelation_degenerate_zero_witness :
    ([(1 : ℝ)]).length < 2 ∧ Analyzer.calculateCorrelation [(1 : ℝ)] [(1 : ℝ)] = 0 :=
  ⟨by norm_num,
   (calculateCorrelation_degenerate_zero [(1 : ℝ)] [(1 : ℝ)]).2.1 (by norm_num)⟩

/-- C3: on equal-length sequences with at least two observations and
nonzero variance on both sides, `calculateCorrelation` computes exactly the
standard Pearson coefficient: the covariance divided by the product of the
standard deviations. -/
theorem calculateCorrelation_eq_pearson (xs ys : List ℝ)
    (hlen : xs.length = ys.length) (h2 : 2 ≤ xs.length)
    (hx : SpecStats.popVariance xs ≠ 0) (hy : SpecStats.popVariance ys ≠ 0) :
    Analyzer.calculateCorrelation xs ys = SpecStats.pearson xs ys := by
  have hn : xs.length ≠ 0 := by omega
  have hny : ys.length ≠ 0 := hlen ▸ hn
  have hnR : (0 : ℝ) < (xs.length : ℝ) := by
    exact_mod_cast Nat.pos_of_ne_zero hn
  have hvx : 0 < SpecStats.popVariance xs :=
    lt_of_le_of_ne (popVariance_nonneg xs) (Ne.symm hx)
  have hvy : 0 < SpecStats.popVariance ys :=
    lt_of_le_of_ne (popVariance_nonneg ys) (Ne.symm hy)
  have hsdx : 0 < SpecStats.stdDev xs := Real.sqrt_pos.mpr hvx
  have hsdy : 0 < SpecStats.stdDev ys := Real.sqrt_pos.mpr hvy
  have hd : Analyzer.corrDenominator xs ys
      = (xs.length : ℝ) ^ 2 * (SpecStats.stdDev xs * SpecStats.stdDev ys) := by
    rw [Analyzer.corrDenominator, svar_eq_sq xs hn, svar_eq_sq ys hny, ← hlen]
    rw [show (xs.length : ℝ) ^ 2 * SpecStats.popVariance xs
          * ((xs.length : ℝ) ^ 2 * SpecStats.popVariance ys)
        = ((xs.length : ℝ) ^ 2) ^ 2
            * (SpecStats.popVariance xs * SpecStats.popVariance ys) from by ring]
    rw [Real.sqrt_mul (by positivity), Real.sqrt_sq (by positivity),
      Real.sqrt_mul (le_of_lt hvx)]
    simp [SpecStats.stdDev]
  have hdne : Analyzer.corrDenominator xs ys ≠ 0 := by
    rw [hd]
    exact ne_of_gt (mul_pos (by positivity) (mul_pos hsdx hsdy))
  have hnum : Analyzer.corrNumerator xs ys
      = (xs.length : ℝ) ^ 2 * SpecStats.covariance xs ys :=
    corrNumerator_eq_sq xs ys hlen hn
  unfold Analyzer.calculateCorrelation
  rw [if_neg (by push_neg; exact ⟨hlen, hn⟩), if_neg hdne, hnum, hd,
    mul_div_mul_left _ _ (by positivity)]
  rfl

/-- C3 witness: the sequences `[0, 1]` and `[0, 1]`. -/
theorem calculateCorrelation_eq_pearson_witness :
    SpecStats.popVariance [(0 : ℝ), 1] ≠ 0
    ∧ Analyzer.calculateCorrelation [(0 : ℝ), 1] [(0 : ℝ), 1]
        = SpecStats.pearson [(0 : ℝ), 1] [(0 : ℝ), 1] := by
  have hv : SpecStats.popVariance [(0 : ℝ), 1] ≠ 0 := by
    simp [SpecStats.popVariance, SpecStats.mean]
    norm_num
  exact ⟨hv, calculateCorrelation_eq_pearson _ _ rfl (by norm_num) hv hv⟩
